import Mathlib

/-!
Shallow embedding of the session/concurrency core of the matlabClaude
repository (python sources under src/python), together with proofs about
the embedded operations.

Modules embedded:
* Permission cascade  — src/python/derivux/permission/permission.py
* Agent registry      — src/python/derivux/agent/registry.py
* Session processor   — src/python/derivux/session/processor.py
* Matlab agent        — src/python/claudecode/agent.py (turn counting and compaction)
* Concurrency bridge  — src/python/derivux/bridge.py (async pending-operation state)

Python dicts are modelled as insertion-ordered association lists, matching
the iteration order and replace-in-place update semantics used by the code.
-/

/-- Lookup in an insertion-ordered association list, mirroring Python
`dict.get`: the first (and only) binding of the key is returned. -/
def dictGet {β : Type} (d : List (String × β)) (k : String) : Option β :=
  match d with
  | [] => none
  | (k', v') :: rest => if k' = k then some v' else dictGet rest k

/-- Update in an insertion-ordered association list, mirroring Python
`d[k] = v`: an existing binding is replaced in place, otherwise the new
binding is appended at the end. -/
def dictInsert {β : Type} (d : List (String × β)) (k : String) (v : β) :
    List (String × β) :=
  match d with
  | [] => [(k, v)]
  | (k', v') :: rest =>
      if k' = k then (k', v) :: rest else (k', v') :: dictInsert rest k v

/-- ASCII whitespace as stripped by Python `str.strip` with no argument. -/
def isPySpace (c : Char) : Bool :=
  c == ' ' || c == '\t' || c == '\n' || c == '\r' || c == '\x0b' || c == '\x0c'

/-- Leading and trailing whitespace removal on a character list. -/
def stripChars (l : List Char) : List Char :=
  ((l.dropWhile isPySpace).reverse.dropWhile isPySpace).reverse

/-- Models Python `str.strip()` (ASCII whitespace). -/
def pyStrip (s : String) : String := String.mk (stripChars s.data)

/-- Models Python `str.lower()` (ASCII case folding). -/
def pyLower (s : String) : String := String.mk (s.data.map Char.toLower)

/-- Character-list prefix test. -/
def startsWithChars : List Char → List Char → Bool
  | _, [] => true
  | [], _ :: _ => false
  | a :: l, b :: m => a == b && startsWithChars l m

/-- Models Python `str.startswith`. -/
def pyStartsWith (s pat : String) : Bool := startsWithChars s.data pat.data

/-- Models the Python slice `s[n:]` (`n` counted in characters). -/
def pyDrop (s : String) (n : Nat) : String := String.mk (s.data.drop n)

namespace Permission

/-- Embeds `PermissionState` from src/python/derivux/permission/permission.py. -/
inductive PermissionState where
  | allow
  | ask
  | deny
deriving DecidableEq, Repr

/-- Embeds `GlobalSettings` from src/python/derivux/permission/permission.py. -/
structure GlobalSettings where
  auto_execute : Bool := false
  bypass_mode : Bool := false
deriving DecidableEq, Repr

/-- Embeds the mutable state of `_PermissionRegistry`
(src/python/derivux/permission/permission.py, `_initialize`). -/
structure Registry where
  defaults : List (String × PermissionState) := []
  agent_overrides : List (String × List (String × PermissionState)) := []
  global_settings : GlobalSettings := {}
  current_agent : String := ""
  remembered : List (String × Bool) := []
deriving DecidableEq, Repr

/-- Embeds `_PermissionRegistry.set_default`. -/
def set_default (reg : Registry) (tool_name : String) (state : PermissionState) :
    Registry :=
  { reg with defaults := dictInsert reg.defaults tool_name state }

/-- Embeds `_PermissionRegistry.set_agent_override`: creates the per-agent
map when absent, then writes the tool binding. -/
def set_agent_override (reg : Registry) (agent_name tool_name : String)
    (state : PermissionState) : Registry :=
  let perms := (dictGet reg.agent_overrides agent_name).getD []
  { reg with
      agent_overrides :=
        dictInsert reg.agent_overrides agent_name
          (dictInsert perms tool_name state) }

/-- Embeds `_PermissionRegistry.set_auto_execute`. -/
def set_auto_execute (reg : Registry) (enabled : Bool) : Registry :=
  { reg with global_settings := { reg.global_settings with auto_execute := enabled } }

/-- Embeds `_PermissionRegistry.set_bypass_mode`. -/
def set_bypass_mode (reg : Registry) (enabled : Bool) : Registry :=
  { reg with global_settings := { reg.global_settings with bypass_mode := enabled } }

/-- Embeds `_PermissionRegistry.set_current_agent`. -/
def set_current_agent (reg : Registry) (agent_name : String) : Registry :=
  { reg with current_agent := agent_name }

/-- The agent name used by `check`: Python `agent or self._current_agent`
(both `None` and the empty string fall back to the current agent). -/
def resolvedAgent (reg : Registry) (agent : Option String) : String :=
  match agent with
  | some a => if a = "" then reg.current_agent else a
  | none => reg.current_agent

/-- The override consulted by `check`: applied only when the resolved agent
name is non-empty, is a key of `_agent_overrides`, and its per-agent map
binds the tool (permission.py lines 275-278). -/
def overrideLookup (reg : Registry) (tool_name agent_name : String) :
    Option PermissionState :=
  if agent_name = "" then none
  else
    match dictGet reg.agent_overrides agent_name with
    | some perms => dictGet perms tool_name
    | none => none

/-- The first two layers of `check`: global default (ALLOW when unset),
then the agent override when one applies (permission.py lines 271-278). -/
def cascade (reg : Registry) (tool_name : String) (agent : Option String) :
    PermissionState :=
  let base := (dictGet reg.defaults tool_name).getD PermissionState.allow
  (overrideLookup reg tool_name (resolvedAgent reg agent)).getD base

/-- Embeds `_PermissionRegistry.check` (permission.py lines 248-289):
cascade, then the auto-execute promotion of ASK to ALLOW, then the
remembered-approval promotion of ASK to ALLOW. -/
def check (reg : Registry) (tool_name : String) (agent : Option String) :
    PermissionState :=
  let state := cascade reg tool_name agent
  let state :=
    if state = PermissionState.ask ∧ reg.global_settings.auto_execute then
      PermissionState.allow
    else state
  if state = PermissionState.ask ∧ (dictGet reg.remembered tool_name).getD false then
    PermissionState.allow
  else state

/-- Embeds `_PermissionRegistry.is_allowed`. -/
def is_allowed (reg : Registry) (tool_name : String) (agent : Option String) : Bool :=
  check reg tool_name agent = PermissionState.allow

end Permission

namespace AgentReg

/-- Embeds `AgentDefinition` from src/python/derivux/config/markdown.py
(the `file_path` bookkeeping field is omitted; it plays no role in routing). -/
structure AgentDefinition where
  name : String
  description : String := ""
  mode : String := "subagent"
  command : String := ""
  system_prompt : String := ""
  permissions : List (String × String) := []
  thinking_budget : Option Nat := none
deriving DecidableEq, Repr

/-- Embeds `RoutingResult` from src/python/derivux/agent/registry.py. -/
structure RoutingResult where
  agent : AgentDefinition
  cleaned_message : String
  routing_type : String
  reason : String
deriving DecidableEq, Repr

/-- Embeds the mutable state of `_AgentRegistry`
(src/python/derivux/agent/registry.py, `_initialize`). -/
structure Registry where
  agents : List (String × AgentDefinition) := []
  commands : List (String × String) := []
  current_primary : String := "build"
  loaded : Bool := false
deriving DecidableEq, Repr

/-- The freshly initialized registry (`_AgentRegistry._initialize`). -/
def initialRegistry : Registry := {}

/-- Embeds `_AgentRegistry.register` (registry.py lines 93-106). The
permission side effects are applied to the permission registry passed in. -/
def register (reg : Registry) (agent : AgentDefinition) : Registry :=
  { reg with
      agents := dictInsert reg.agents agent.name agent
      commands :=
        if agent.command ≠ "" then dictInsert reg.commands agent.command agent.name
        else reg.commands }

/-- Embeds `_AgentRegistry.get`. -/
def get (reg : Registry) (name : String) : Option AgentDefinition :=
  dictGet reg.agents name

/-- Embeds `_AgentRegistry.default`: the agent registered under the
current primary name, if any. -/
def defaultAgent (reg : Registry) : Option AgentDefinition :=
  dictGet reg.agents reg.current_primary

/-- Embeds `_AgentRegistry.switch` (registry.py lines 181-195); the
permission-registry side effect is returned alongside the new state. -/
def switch (reg : Registry) (name : String) : Registry × Bool :=
  match dictGet reg.agents name with
  | some agent =>
      if agent.mode = "primary" then ({ reg with current_primary := name }, true)
      else (reg, false)
  | none => (reg, false)

/-- Python word character as matched by the `\w` class of the mention
regex, restricted to ASCII. -/
def isWordChar (c : Char) : Bool := c.isAlphanum || c == '_'

/-- Embeds the mention regex match of `_AgentRegistry.route`
(registry.py line 265): the pattern anchored at the start matches an at
sign, one or more word characters (the captured agent name), then greedy
optional whitespace; the second component is the text after the match. -/
def mentionMatch (message : String) : Option (String × String) :=
  match message.data with
  | '@' :: rest =>
      let word := rest.takeWhile isWordChar
      if word.isEmpty then none
      else
        let after := (rest.dropWhile isWordChar).dropWhile isPySpace
        some (String.mk word, String.mk after)
  | _ => none

/-- Steps 3 and 4 of `_AgentRegistry.route` (registry.py lines 278-294):
the current primary agent when registered, else the synthesized minimal
fallback agent. -/
def routeDefault (reg : Registry) (message : String) : RoutingResult :=
  match dictGet reg.agents reg.current_primary with
  | some agent =>
      { agent := agent
        cleaned_message := message
        routing_type := "default"
        reason := "Default: " ++ agent.name }
  | none =>
      { agent := { name := "general", description := "General agent" }
        cleaned_message := message
        routing_type := "fallback"
        reason := "No agents loaded, using fallback" }

/-- The second routing step of `_AgentRegistry.route` (registry.py lines
264-276): a leading mention of a registered agent, else the default and
fallback steps. -/
def routeMentionOrDefault (reg : Registry) (message : String) : RoutingResult :=
  match mentionMatch message with
  | some (agent_name, rest) =>
      match dictGet reg.agents agent_name with
      | some agent =>
          { agent := agent
            cleaned_message := pyStrip rest
            routing_type := "mention"
            reason := "@mention: @" ++ agent_name }
      | none => routeDefault reg message
  | none => routeDefault reg message

/-- The command-scan predicate of `_AgentRegistry.route` (lines 252-262):
a command entry fires when its lowercased text is a prefix of the
lowercased message and its agent name is registered (when the lookup
fails the Python loop falls through to the next entry). -/
def commandFires (reg : Registry) (message : String) (entry : String × String) :
    Bool :=
  pyStartsWith (pyLower message) (pyLower entry.1) &&
    (dictGet reg.agents entry.2).isSome

/-- Embeds `_AgentRegistry.route` (registry.py lines 235-294). -/
def route (reg : Registry) (message0 : String) : RoutingResult :=
  let message := pyStrip message0
  match reg.commands.find? (commandFires reg message) with
  | some (command, agent_name) =>
      match dictGet reg.agents agent_name with
      | some agent =>
          { agent := agent
            cleaned_message := pyStrip (pyDrop message command.data.length)
            routing_type := "command"
            reason := "Explicit command: " ++ command }
      | none => routeMentionOrDefault reg message
  | none => routeMentionOrDefault reg message

end AgentReg

namespace Session

/-- Outcome of the backend client close call awaited inside
`SessionProcessor.stop` (processor.py lines 173-186): it may return, time
out, or raise; `stop` catches the last two. -/
inductive CloseOutcome where
  | ok
  | timedOut
  | raised (msg : String)
deriving DecidableEq, Repr

/-- Embeds the state of `SessionProcessor`
(src/python/derivux/session/processor.py, `__init__`): the SDK client
handle is abstracted to a numeric identifier. -/
structure ProcessorState where
  client : Option Nat := none
  current_agent : Option AgentReg.AgentDefinition := none
  session_id : Option String := none
  turn_count : Nat := 0
deriving DecidableEq, Repr

/-- Embeds the state changes of `SessionProcessor.start` (processor.py
lines 114-164) on its successful path: the agent is recorded and a fresh
client is opened. The method never stops an already-running client and
touches neither the session identifier nor the turn counter. -/
def start (s : ProcessorState) (agent : AgentReg.AgentDefinition)
    (newClient : Nat) : ProcessorState :=
  { s with current_agent := some agent, client := some newClient }

/-- Embeds `SessionProcessor.stop` (processor.py lines 166-191). When no
client is open the body is skipped. Otherwise the close call runs under a
try block whose except arms swallow timeouts and exceptions, and whose
finally arm clears the client, agent, and turn counter whatever the
outcome was; totality of this function reflects that no exception
escapes. -/
def stop (s : ProcessorState) (outcome : CloseOutcome) : ProcessorState :=
  match s.client with
  | none => s
  | some _ =>
      match outcome with
      | _ => { s with client := none, current_agent := none, turn_count := 0 }

/-- Embeds the `SessionProcessor.is_running` property (processor.py lines
327-330). -/
def is_running (s : ProcessorState) : Bool :=
  s.client.isSome

/-- Embeds the session-identifier capture on a `ResultMessage`
(processor.py lines 241-243). -/
def recordSessionId (s : ProcessorState) (sid : String) : ProcessorState :=
  { s with session_id := some sid }

/-- Embeds the turn-count increment at the end of
`SessionProcessor.query` (processor.py line 245). -/
def incrementTurn (s : ProcessorState) : ProcessorState :=
  { s with turn_count := s.turn_count + 1 }

end Session

namespace MAgent

/-- Outcome of one call to `MatlabAgent.compact_conversation`
(src/python/claudecode/agent.py lines 420-469), as seen by the try block:
the summarization query may raise, or it may deliver a summary text after
which the stop/reset/restart sequence runs (`restartFailed` is the case
where the final `start` raises after the counter was already reset). -/
inductive CompactionOutcome where
  | queryError
  | summarized (summary : String)
  | restartFailed (summary : String)
deriving DecidableEq, Repr

/-- Embeds the conversation-memory state of `MatlabAgent`
(src/python/claudecode/agent.py): whether the SDK client is open, the
turn counter, the stored summary, and the effective system prompt. -/
structure AgentState where
  clientOpen : Bool := true
  turn_count : Nat := 0
  conversation_summary : String := ""
  system_prompt : String := ""
deriving DecidableEq, Repr

/-- Embeds `MatlabAgent.COMPACTION_THRESHOLD` (agent.py line 105). -/
def COMPACTION_THRESHOLD : Nat := 50

/-- Embeds `MatlabAgent.increment_turn` (agent.py lines 411-418). -/
def increment_turn (s : AgentState) : AgentState :=
  { s with turn_count := s.turn_count + 1 }

/-- The connective text inserted between the default system prompt and the
conversation summary when compaction rebuilds the prompt (agent.py lines
458-463); `MATLAB_SYSTEM_PROMPT` is abstracted as the `base` argument. -/
def compactedPrompt (base summary : String) : String :=
  base ++ "\n\n## Previous Conversation Summary\n" ++
    "The user and I have been working together. Here\x27s a summary:\n\n" ++
    summary

/-- Abbreviation of the default system prompt constant
`MATLAB_SYSTEM_PROMPT` (agent.py lines 68-88) used by the prompt rebuild;
the compaction claims do not depend on its full text, only on the fact
that the rebuild starts from this fixed constant rather than from the
current prompt of the agent. -/
def matlabBasePrompt : String :=
  "You are an expert MATLAB and Simulink assistant."

/-- Embeds `MatlabAgent.compact_conversation` (agent.py lines 420-469).
With no client it returns at once. A summarization-query error is caught
by the except arm leaving the state untouched. On a delivered summary the
code stores it, stops the client, zeroes the turn counter, rebuilds the
system prompt from the default base when the summary is non-empty, and
restarts; when the restart raises, the same except arm swallows it after
the counter was already zeroed. Totality of this function reflects that
no exception escapes the call. -/
def compact_conversation (s : AgentState) (outcome : CompactionOutcome) :
    AgentState :=
  if !s.clientOpen then s
  else
    match outcome with
    | .queryError => s
    | .summarized t =>
        let s := { s with conversation_summary := t, clientOpen := false,
                          turn_count := 0 }
        let s :=
          if t ≠ "" then { s with system_prompt := compactedPrompt matlabBasePrompt t }
          else s
        { s with clientOpen := true }
    | .restartFailed t =>
        let s := { s with conversation_summary := t, clientOpen := false,
                          turn_count := 0 }
        if t ≠ "" then { s with system_prompt := compactedPrompt matlabBasePrompt t }
        else s

/-- Embeds the post-success completion step of `MatlabBridge._run_sdk_async`
(src/python/derivux/bridge.py lines 573-578): after a successful query the
bridge increments the agent turn counter and, when it has reached
`COMPACTION_THRESHOLD`, awaits `compact_conversation`; the boolean
records whether the compaction call was made. -/
def completionStep (s : AgentState) (outcome : CompactionOutcome) :
    AgentState × Bool :=
  let s := increment_turn s
  if COMPACTION_THRESHOLD ≤ s.turn_count then
    (compact_conversation s outcome, true)
  else
    (s, false)

/-- Iterates `completionStep` for a run of successful query completions on
one agent, counting how many of them invoked compaction. -/
def runCompletions (s : AgentState) (outcome : CompactionOutcome) :
    Nat → AgentState × Nat
  | 0 => (s, 0)
  | n + 1 =>
      let (s', k) := runCompletions s outcome n
      let (s'', fired) := completionStep s' outcome
      (s'', k + (if fired then 1 else 0))

end MAgent

namespace Bridge

/-- Values stored in the async result dicts of `MatlabBridge`
(src/python/derivux/bridge.py): strings, booleans, and lists of image
payloads (payload blobs abstracted to strings). -/
inductive JVal where
  | str (s : String)
  | boolean (b : Bool)
  | imgs (l : List String)
deriving DecidableEq, Repr

/-- A Python result dict modelled as an insertion-ordered association
list of field names to values. -/
def RespDict := List (String × JVal)
deriving DecidableEq

/-- Structured content items streamed by the agent and buffered by
`_run_sdk_async` (bridge.py lines 532-545). -/
inductive ContentItem where
  | text (s : String)
  | image (source : String)
  | toolUse (name : String)
deriving DecidableEq, Repr

/-- Embeds the lock-guarded async state of `MatlabBridge` in SDK mode
(bridge.py `__init__` lines 91-107): the pending async operation plus the
shutdown flag and the running-agent flag. -/
structure BridgeState where
  asyncResponse : Option RespDict := none
  asyncChunks : List String := []
  asyncContent : List ContentItem := []
  asyncComplete : Bool := false
  interruptRequested : Bool := false
  shutdownRequested : Bool := false
  agentRunning : Bool := false
deriving DecidableEq

/-- The bridge async state right after `__init__`. -/
def initialState : BridgeState := {}

/-- The result dict written by the shutdown guard at the top of
`start_async_message` (bridge.py lines 358-366). -/
def shutdownGuardResponse : RespDict :=
  [("text", .str ""), ("images", .imgs []), ("success", .boolean false),
   ("error", .str "Bridge is shutting down"), ("session_id", .str ""),
   ("agent_name", .str ""), ("routing_reason", .str "")]

/-- The result dict written on normal completion of the streamed query
(bridge.py lines 549-559). -/
def successResponse (text : String) (images : List String)
    (session_id agent_name routing_reason : String) : RespDict :=
  [("text", .str text), ("images", .imgs images), ("success", .boolean true),
   ("error", .str ""), ("session_id", .str session_id),
   ("agent_name", .str agent_name), ("routing_reason", .str routing_reason)]

/-- The result dict written when the background task is cancelled
(bridge.py lines 585-595). -/
def cancelledResponse (text : String) (images : List String)
    (agent_name routing_reason : String) : RespDict :=
  [("text", .str text), ("images", .imgs images), ("success", .boolean false),
   ("error", .str "Cancelled by user"), ("session_id", .str ""),
   ("agent_name", .str agent_name), ("routing_reason", .str routing_reason),
   ("interrupted", .boolean true)]

/-- The result dict written when the streamed query raises
(bridge.py lines 606-616). -/
def errorResponse (err agent_name routing_reason : String) : RespDict :=
  [("text", .str ""), ("images", .imgs []), ("success", .boolean false),
   ("error", .str err), ("session_id", .str ""),
   ("agent_name", .str agent_name), ("routing_reason", .str routing_reason)]

/-- The result dict written when no agent object exists
(bridge.py lines 502-512). -/
def missingAgentResponse (agent_name routing_reason : String) : RespDict :=
  errorResponse "Agent not initialized" agent_name routing_reason

/-- The result dict written by the defensive finally block
(bridge.py lines 622-633). -/
def finallyResponse (agent_name routing_reason : String) : RespDict :=
  errorResponse "Unexpected error during agent execution" agent_name routing_reason

/-- The result dict written by `interrupt_process` (bridge.py lines
726-735). -/
def interruptedResponse : RespDict :=
  [("text", .str ""), ("images", .imgs []), ("success", .boolean false),
   ("error", .str "Interrupted by user"), ("session_id", .str ""),
   ("agent_name", .str ""), ("routing_reason", .str ""),
   ("interrupted", .boolean true)]

/-- The result dict written by `shutdown` for a still-pending operation
(bridge.py lines 804-813). -/
def shutdownResponse : RespDict :=
  [("text", .str ""), ("images", .imgs []), ("success", .boolean false),
   ("error", .str "Shutdown requested"), ("session_id", .str ""),
   ("agent_name", .str ""), ("routing_reason", .str "")]

/-- Embeds `MatlabBridge.start_async_message` in SDK mode (bridge.py
lines 336-414): the shutdown guard records a completed error result and
schedules nothing (boolean `false`), otherwise the pending operation is
reset and the background work is scheduled (boolean `true`). -/
def start_async_message (s : BridgeState) : BridgeState × Bool :=
  if s.shutdownRequested then
    ({ s with asyncResponse := some shutdownGuardResponse, asyncComplete := true },
     false)
  else
    ({ s with asyncResponse := none, asyncChunks := [], asyncContent := [],
              asyncComplete := false, interruptRequested := false },
     true)

/-- Embeds the lock-guarded buffer append for one streamed content item
inside `_run_sdk_async` (bridge.py lines 532-545): the structured item is
always buffered; text items and tool-use items additionally append a
text chunk. -/
def streamContent (s : BridgeState) (c : ContentItem) : BridgeState :=
  let s := { s with asyncContent := s.asyncContent ++ [c] }
  match c with
  | .text t => { s with asyncChunks := s.asyncChunks ++ [t] }
  | .image _ => s
  | .toolUse n =>
      { s with asyncChunks := s.asyncChunks ++ ["\n[Using tool: " ++ n ++ "]\n"] }

/-- Embeds the normal-completion writer of `_run_sdk_async`
(bridge.py lines 549-559). -/
def finishSuccess (s : BridgeState) (text : String) (images : List String)
    (session_id agent_name routing_reason : String) : BridgeState :=
  { s with
      asyncResponse := some (successResponse text images session_id agent_name routing_reason)
      asyncComplete := true }

/-- Embeds the `asyncio.CancelledError` writer of `_run_sdk_async`
(bridge.py lines 580-597). -/
def finishCancelled (s : BridgeState) (text : String) (images : List String)
    (agent_name routing_reason : String) : BridgeState :=
  { s with
      asyncResponse := some (cancelledResponse text images agent_name routing_reason)
      asyncComplete := true }

/-- Embeds the generic exception writer of `_run_sdk_async`
(bridge.py lines 599-617). -/
def finishError (s : BridgeState) (err agent_name routing_reason : String) :
    BridgeState :=
  { s with
      asyncResponse := some (errorResponse err agent_name routing_reason)
      asyncComplete := true }

/-- Embeds the missing-agent writer of `_run_sdk_async`
(bridge.py lines 500-513). -/
def finishMissingAgent (s : BridgeState) (agent_name routing_reason : String) :
    BridgeState :=
  { s with
      asyncResponse := some (missingAgentResponse agent_name routing_reason)
      asyncComplete := true }

/-- Embeds the defensive finally block of `_run_sdk_async`
(bridge.py lines 619-633): when completion was already marked it does
nothing, otherwise it records an error result and marks completion. -/
def finallyGuard (s : BridgeState) (agent_name routing_reason : String) :
    BridgeState :=
  if s.asyncComplete then s
  else
    { s with
        asyncResponse := some (finallyResponse agent_name routing_reason)
        asyncComplete := true }

/-- Embeds `MatlabBridge.interrupt_process` in SDK mode (bridge.py lines
701-779). With the operation already complete it returns `false` without
touching any state. Otherwise, under the lock, it raises the interrupt
flag, stores the interrupted result and marks completion; it then cancels
the task, stops the agent (best effort, the running flag is cleared), and
finally lowers the interrupt flag again before returning `true`. -/
def interrupt_process (s : BridgeState) : BridgeState × Bool :=
  if s.asyncComplete then (s, false)
  else
    let s := { s with interruptRequested := true,
                      asyncResponse := some interruptedResponse,
                      asyncComplete := true }
    let s := { s with agentRunning := false }
    ({ s with interruptRequested := false }, true)

/-- The externally observable cleanup actions of `MatlabBridge.shutdown`,
in the order the method body attempts them. -/
inductive ShutdownAction where
  | setShutdownFlag
  | markPendingComplete
  | stopAgentSession
  | stopEventLoop
  | joinLoopThread
deriving DecidableEq, Repr

/-- Embeds `MatlabBridge.shutdown` in SDK mode (bridge.py lines 781-838
with `_shutdown_event_loop` lines 840-893), returning the new state
together with the ordered trace of cleanup actions: first the shutdown
flag, then (when an operation is still pending) the completion marking,
then the agent-session stop (only when an agent is running), the
event-loop stop, and the loop-thread join. -/
def shutdown (s : BridgeState) : BridgeState × List ShutdownAction :=
  let s1 : BridgeState := { s with shutdownRequested := true }
  let marked : BridgeState × List ShutdownAction :=
    if s1.asyncComplete then (s1, [])
    else
      ({ s1 with asyncResponse := some shutdownResponse, asyncComplete := true },
       [ShutdownAction.markPendingComplete])
  let s2 := marked.1
  let loopActions : List ShutdownAction :=
    (if s2.agentRunning then [ShutdownAction.stopAgentSession] else []) ++
      [ShutdownAction.stopEventLoop, ShutdownAction.joinLoopThread]
  ({ s2 with agentRunning := false },
   ShutdownAction.setShutdownFlag :: marked.2 ++ loopActions)

/-- Embeds `MatlabBridge.poll_async_chunks` (bridge.py lines 651-660). -/
def poll_async_chunks (s : BridgeState) : List String × BridgeState :=
  (s.asyncChunks, { s with asyncChunks := [] })

/-- Embeds the lock-guarded part of `MatlabBridge.poll_async_content`
(bridge.py lines 662-680); the extra image-queue drain adds to the
returned list only. -/
def poll_async_content (s : BridgeState) : List ContentItem × BridgeState :=
  (s.asyncContent, { s with asyncContent := [] })

/-- Embeds `MatlabBridge.is_async_complete` (bridge.py lines 682-685). -/
def is_async_complete (s : BridgeState) : Bool :=
  s.asyncComplete

/-- Embeds `MatlabBridge.get_async_response` (bridge.py lines 687-694). -/
def get_async_response (s : BridgeState) : Option RespDict :=
  s.asyncResponse

/-- One atomic transition of the bridge async state in SDK mode: the
caller-side operations together with every writer of the background
task. -/
inductive Step : BridgeState → BridgeState → Prop where
  | startMsg (s : BridgeState) : Step s (start_async_message s).1
  | stream (s : BridgeState) (c : ContentItem) : Step s (streamContent s c)
  | success (s : BridgeState) (text : String) (images : List String)
      (sid an rr : String) : Step s (finishSuccess s text images sid an rr)
  | cancelled (s : BridgeState) (text : String) (images : List String)
      (an rr : String) : Step s (finishCancelled s text images an rr)
  | errored (s : BridgeState) (err an rr : String) : Step s (finishError s err an rr)
  | missingAgent (s : BridgeState) (an rr : String) :
      Step s (finishMissingAgent s an rr)
  | finallyStep (s : BridgeState) (an rr : String) : Step s (finallyGuard s an rr)
  | interrupt (s : BridgeState) : Step s (interrupt_process s).1
  | shutdownStep (s : BridgeState) : Step s (shutdown s).1
  | pollChunks (s : BridgeState) : Step s (poll_async_chunks s).2
  | pollContent (s : BridgeState) : Step s (poll_async_content s).2

/-- A bridge async state reachable from the freshly initialized bridge by
the modelled operations. -/
def Reachable (s : BridgeState) : Prop :=
  Relation.ReflTransGen Step initialState s

/-- The field names of a result dict. -/
def keysOf (r : RespDict) : List String :=
  r.map Prod.fst

/-- The completion invariant of the pending async operation: whenever the
completion flag is raised, a result dict with `success` and `error`
fields is stored. -/
def CompletionInv (s : BridgeState) : Prop :=
  s.asyncComplete = true →
    ∃ r, s.asyncResponse = some r ∧
      "success" ∈ keysOf r ∧ "error" ∈ keysOf r

end Bridge

namespace Scenario

/-- The `build` agent of the spec scenario: primary, no command. -/
def buildAgent : AgentReg.AgentDefinition :=
  { name := "build", description := "Primary development agent", mode := "primary" }

/-- The `plan` agent of the spec scenario: primary, no command. -/
def planAgent : AgentReg.AgentDefinition :=
  { name := "plan", description := "Planning agent", mode := "primary" }

/-- The `git` agent of the spec scenario: subagent reachable through the
`/git` command. -/
def gitAgent : AgentReg.AgentDefinition :=
  { name := "git", description := "Git agent", mode := "subagent", command := "/git" }

/-- The scenario registry: `build` (current primary), `plan`, and `git`
registered in that order. -/
def reg : AgentReg.Registry :=
  AgentReg.register
    (AgentReg.register (AgentReg.register AgentReg.initialRegistry buildAgent)
      planAgent)
    gitAgent

/-- A permission registry used by concrete witnesses: the `bash` tool
defaults to DENY and the `plot` tool to ASK. -/
def permReg : Permission.Registry :=
  Permission.set_default
    (Permission.set_default { } "bash" Permission.PermissionState.deny)
    "plot" Permission.PermissionState.ask

/-- A session-processor state that is running for agent `build` with a
recorded session identifier and five completed turns. -/
def runningProc : Session.ProcessorState :=
  { client := some 1, current_agent := some buildAgent,
    session_id := some "sess-1", turn_count := 5 }

/-- A fresh agent-conversation state bound to one agent. -/
def freshAgent : MAgent.AgentState :=
  { clientOpen := true, turn_count := 0, conversation_summary := "",
    system_prompt := MAgent.matlabBasePrompt }

end Scenario

section Theorems

theorem dictGet_insert_self {β : Type} (d : List (String × β)) (k : String) (v : β) :
    dictGet (dictInsert d k v) k = some v := by
  induction d with
  | nil => simp [dictGet, dictInsert]
  | cons hd tl ih =>
      obtain ⟨k', v'⟩ := hd
      by_cases h : k' = k
      · simp [dictGet, dictInsert, h]
      · simp [dictGet, dictInsert, h, ih]

theorem find?_congr_of_mem {α : Type} {p q : α → Bool} (l : List α)
    (h : ∀ a ∈ l, p a = q a) : l.find? p = l.find? q := by
  induction l with
  | nil => rfl
  | cons a l ih =>
      have ha : p a = q a := h a (by simp)
      cases hq : q a with
      | true => simp [List.find?, ha, hq]
      | false =>
          simp only [List.find?, ha, hq]
          exact ih (fun x hx => h x (by simp [hx]))

theorem cascade_set_auto_execute (reg : Permission.Registry) (b : Bool)
    (tool : String) (agent : Option String) :
    Permission.cascade (Permission.set_auto_execute reg b) tool agent =
      Permission.cascade reg tool agent := rfl

theorem cascade_set_default_self (reg : Permission.Registry) (tool : String)
    (st : Permission.PermissionState) (agent : Option String) :
    Permission.cascade (Permission.set_default reg tool st) tool agent =
      (Permission.overrideLookup reg tool (Permission.resolvedAgent reg agent)).getD
        st := by
  have h : dictGet (Permission.set_default reg tool st).defaults tool = some st :=
    dictGet_insert_self _ _ _
  simp only [Permission.cascade, h, Option.getD_some]
  rfl

/-- C3: for all tools and agents (registered or not) `check` returns
exactly one of ALLOW, ASK, DENY; a tool with no configured default (and
no applicable override) resolves to ALLOW; an agent name absent from the
override table makes `check` behave as if the override table were empty;
and whenever the default-then-override cascade yields DENY, `check`
returns DENY for every combination of global settings and remembered
approvals. -/
theorem permission_check_cascade_totality :
    (∀ (reg : Permission.Registry) (tool : String) (agent : Option String),
        Permission.check reg tool agent = Permission.PermissionState.allow ∨
        Permission.check reg tool agent = Permission.PermissionState.ask ∨
        Permission.check reg tool agent = Permission.PermissionState.deny) ∧
    (∀ (reg : Permission.Registry) (tool : String) (agent : Option String),
        dictGet reg.defaults tool = none →
        Permission.overrideLookup reg tool (Permission.resolvedAgent reg agent) = none →
        Permission.check reg tool agent = Permission.PermissionState.allow) ∧
    (∀ (reg : Permission.Registry) (tool a : String),
        a ≠ "" →
        dictGet reg.agent_overrides a = none →
        Permission.check reg tool (some a) =
          Permission.check { reg with agent_overrides := [] } tool (some a)) ∧
    (∀ (reg : Permission.Registry) (tool : String) (agent : Option String),
        Permission.cascade reg tool agent = Permission.PermissionState.deny →
        ∀ (g : Permission.GlobalSettings) (rem : List (String × Bool)),
          Permission.check { reg with global_settings := g, remembered := rem }
              tool agent = Permission.PermissionState.deny) := by
  refine ⟨?_, ?_, ?_, ?_⟩
  · intro reg tool agent
    rcases e : Permission.check reg tool agent with _ | _ | _ <;> simp
  · intro reg tool agent hdef hov
    simp [Permission.check, Permission.cascade, hdef, hov]
  · intro reg tool a ha hov
    have h1 : Permission.resolvedAgent reg (some a) = a := by
      simp [Permission.resolvedAgent, ha]
    have h2 : Permission.resolvedAgent { reg with agent_overrides := [] } (some a) = a := by
      simp [Permission.resolvedAgent, ha]
    simp [Permission.check, Permission.cascade, h1, h2,
      Permission.overrideLookup, ha, hov, dictGet]
  · intro reg tool agent hcas g rem
    have hc : Permission.cascade { reg with global_settings := g, remembered := rem }
        tool agent = Permission.PermissionState.deny := hcas
    simp [Permission.check, hc]

/-- Witness for C3 at concrete inputs: the empty registry resolves an
unconfigured tool to ALLOW for an unregistered agent; an agent name
missing from the override table of `Scenario.permReg` is routed through
the empty-override path; and the DENY configured for `bash` survives
every combination of global settings and remembered approvals. -/
theorem permission_check_cascade_totality_witness :
    Permission.check { } "matlab_execute" (some "nobody") =
      Permission.PermissionState.allow ∧
    Permission.check Scenario.permReg "bash" (some "nobody") =
      Permission.check { Scenario.permReg with agent_overrides := [] }
        "bash" (some "nobody") ∧
    Permission.check
        { Scenario.permReg with
            global_settings := { auto_execute := true, bypass_mode := true },
            remembered := [("bash", true)] }
        "bash" (some "nobody") = Permission.PermissionState.deny :=
  ⟨permission_check_cascade_totality.2.1 { } "matlab_execute" (some "nobody")
      (by decide) (by decide),
   permission_check_cascade_totality.2.2.1 Scenario.permReg "bash" "nobody"
      (by decide) (by decide),
   permission_check_cascade_totality.2.2.2 Scenario.permReg "bash" (some "nobody")
      (by decide) { auto_execute := true, bypass_mode := true } [("bash", true)]⟩

/-- C8: with the default for a tool set to ASK, and for the queried agent
no applicable override and no remembered approval of the tool, enabling
auto-execute makes `check` return ALLOW, and restoring auto-execute to
false makes `check` return ASK again. -/
theorem auto_execute_round_trip (reg : Permission.Registry) (tool : String)
    (agent : Option String)
    (hov : Permission.overrideLookup reg tool (Permission.resolvedAgent reg agent) = none)
    (hrem : (dictGet reg.remembered tool).getD false = false) :
    Permission.check
        (Permission.set_auto_execute (Permission.set_default reg tool
          Permission.PermissionState.ask) true) tool agent =
      Permission.PermissionState.allow ∧
    Permission.check
        (Permission.set_auto_execute (Permission.set_default reg tool
          Permission.PermissionState.ask) false) tool agent =
      Permission.PermissionState.ask := by
  have hcas : ∀ b : Bool,
      Permission.cascade
          (Permission.set_auto_execute (Permission.set_default reg tool
            Permission.PermissionState.ask) b) tool agent =
        Permission.PermissionState.ask := by
    intro b
    rw [cascade_set_auto_execute, cascade_set_default_self, hov]
    rfl
  have hrem' : ∀ b : Bool,
      (dictGet (Permission.set_auto_execute (Permission.set_default reg tool
          Permission.PermissionState.ask) b).remembered tool).getD false = false :=
    fun _ => hrem
  have hauto : ∀ b : Bool,
      (Permission.set_auto_execute (Permission.set_default reg tool
          Permission.PermissionState.ask) b).global_settings.auto_execute = b :=
    fun _ => rfl
  constructor
  · simp only [Permission.check, hcas true, hauto true, hrem' true]
    simp
  · simp only [Permission.check, hcas false, hauto false, hrem' false]
    simp

/-- Witness for C8 at a concrete input: in `Scenario.permReg` the `plot`
tool (default ASK, no overrides, nothing remembered) is promoted to
ALLOW by enabling auto-execute and reverts to ASK when it is disabled. -/
theorem auto_execute_round_trip_witness :
    Permission.check
        (Permission.set_auto_execute (Permission.set_default Scenario.permReg "plot"
          Permission.PermissionState.ask) true) "plot" (some "build") =
      Permission.PermissionState.allow ∧
    Permission.check
        (Permission.set_auto_execute (Permission.set_default Scenario.permReg "plot"
          Permission.PermissionState.ask) false) "plot" (some "build") =
      Permission.PermissionState.ask :=
  auto_execute_round_trip Scenario.permReg "plot" (some "build")
    (by decide) (by decide)

/-- C4: routing applies command matching before mention matching before
the default. A message whose trimmed text starts (case-insensitively)
with a registered command is routed to that command agent with kind
`command` and the text after the command trimmed; with no command match,
a leading `@name` mention of a registered agent routes to it with kind
`mention` and the mention stripped; with neither, the current primary
agent is selected with kind `default` and the trimmed message unchanged.
The first conjunct assumes the registry invariant that every command
entry points at a registered agent, which `register` maintains. -/
theorem route_precedence_spec :
    (∀ (reg : AgentReg.Registry) (msg command agent_name : String)
        (agent : AgentReg.AgentDefinition),
        (∀ p ∈ reg.commands, (dictGet reg.agents p.2).isSome = true) →
        reg.commands.find?
            (fun p => pyStartsWith (pyLower (pyStrip msg)) (pyLower p.1)) =
          some (command, agent_name) →
        dictGet reg.agents agent_name = some agent →
        AgentReg.route reg msg =
          { agent := agent
            cleaned_message := pyStrip (pyDrop (pyStrip msg) command.data.length)
            routing_type := "command"
            reason := "Explicit command: " ++ command }) ∧
    (∀ (reg : AgentReg.Registry) (msg agent_name rest : String)
        (agent : AgentReg.AgentDefinition),
        reg.commands.find? (AgentReg.commandFires reg (pyStrip msg)) = none →
        AgentReg.mentionMatch (pyStrip msg) = some (agent_name, rest) →
        dictGet reg.agents agent_name = some agent →
        AgentReg.route reg msg =
          { agent := agent
            cleaned_message := pyStrip rest
            routing_type := "mention"
            reason := "@mention: @" ++ agent_name }) ∧
    (∀ (reg : AgentReg.Registry) (msg : String) (agent : AgentReg.AgentDefinition),
        reg.commands.find? (AgentReg.commandFires reg (pyStrip msg)) = none →
        (∀ n rest, AgentReg.mentionMatch (pyStrip msg) = some (n, rest) →
          dictGet reg.agents n = none) →
        dictGet reg.agents reg.current_primary = some agent →
        AgentReg.route reg msg =
          { agent := agent
            cleaned_message := pyStrip msg
            routing_type := "default"
            reason := "Default: " ++ agent.name }) := by
  refine ⟨?_, ?_, ?_⟩
  · intro reg msg command agent_name agent hwf hfind hget
    have hcf : reg.commands.find? (AgentReg.commandFires reg (pyStrip msg)) =
        some (command, agent_name) := by
      refine (find?_congr_of_mem reg.commands fun p hp => ?_).trans hfind
      simp [AgentReg.commandFires, hwf p hp]
    simp [AgentReg.route, hcf, hget]
  · intro reg msg agent_name rest agent hfind hm hget
    simp [AgentReg.route, hfind, AgentReg.routeMentionOrDefault, hm, hget]
  · intro reg msg agent hfind hm hdef
    rcases e : AgentReg.mentionMatch (pyStrip msg) with _ | ⟨n, rest⟩
    · simp [AgentReg.route, hfind, AgentReg.routeMentionOrDefault, e,
        AgentReg.routeDefault, hdef]
    · have hn := hm n rest e
      simp [AgentReg.route, hfind, AgentReg.routeMentionOrDefault, e, hn,
        AgentReg.routeDefault, hdef]

/-- Witness for C4 on the spec scenario registry: `/git status` routes by
command to `git` with cleaned message `status`; `@git show log` routes by
mention to `git` with cleaned message `show log`; `deploy the service`
routes to the current primary `build` with kind `default`. -/
theorem route_precedence_witness :
    AgentReg.route Scenario.reg "/git status" =
      { agent := Scenario.gitAgent, cleaned_message := "status",
        routing_type := "command", reason := "Explicit command: /git" } ∧
    AgentReg.route Scenario.reg "@git show log" =
      { agent := Scenario.gitAgent, cleaned_message := "show log",
        routing_type := "mention", reason := "@mention: @git" } ∧
    AgentReg.route Scenario.reg "deploy the service" =
      { agent := Scenario.buildAgent, cleaned_message := "deploy the service",
        routing_type := "default", reason := "Default: build" } :=
  ⟨(route_precedence_spec.1 Scenario.reg "/git status" "/git" "git"
      Scenario.gitAgent (by decide) (by decide) (by decide)).trans (by decide),
   (route_precedence_spec.2.1 Scenario.reg "@git show log" "git" "show log"
      Scenario.gitAgent (by decide) (by decide) (by decide)).trans (by decide),
   (route_precedence_spec.2.2 Scenario.reg "deploy the service"
      Scenario.buildAgent (by decide)
      (by
        intro n rest h
        rw [show AgentReg.mentionMatch (pyStrip "deploy the service") = none from
          by decide] at h
        exact Option.noConfusion h)
      (by decide)).trans (by decide)⟩

/-- C5: on any registry with no agents registered, `route` returns, for
every input message including the empty string, a non-null result of
kind `fallback` whose agent is the synthesized minimal `general` agent;
it never fails to produce a result (the embedding is a total function
into `RoutingResult`). -/
theorem route_fallback_never_fails (reg : AgentReg.Registry) (msg : String)
    (h : reg.agents = []) :
    AgentReg.route reg msg =
      { agent := { name := "general", description := "General agent" }
        cleaned_message := pyStrip msg
        routing_type := "fallback"
        reason := "No agents loaded, using fallback" } := by
  have hg : ∀ k, dictGet reg.agents k = none := by
    intro k; rw [h]; rfl
  have hfind : reg.commands.find?
      (AgentReg.commandFires reg (pyStrip msg)) = none := by
    rw [List.find?_eq_none]
    intro p _
    simp [AgentReg.commandFires, hg]
  rcases e : AgentReg.mentionMatch (pyStrip msg) with _ | ⟨n, rest⟩ <;>
    simp [AgentReg.route, hfind, AgentReg.routeMentionOrDefault, e,
      AgentReg.routeDefault, hg]

/-- Witness for C5: the freshly initialized registry routes the empty
string (and a nonempty message) to the fallback `general` agent. -/
theorem route_fallback_never_fails_witness :
    AgentReg.route AgentReg.initialRegistry "" =
      { agent := { name := "general", description := "General agent" }
        cleaned_message := pyStrip ""
        routing_type := "fallback"
        reason := "No agents loaded, using fallback" } ∧
    AgentReg.route AgentReg.initialRegistry "@git hello" =
      { agent := { name := "general", description := "General agent" }
        cleaned_message := pyStrip "@git hello"
        routing_type := "fallback"
        reason := "No agents loaded, using fallback" } :=
  ⟨route_fallback_never_fails AgentReg.initialRegistry "" rfl,
   route_fallback_never_fails AgentReg.initialRegistry "@git hello" rfl⟩

/-- C9: the embedded `stop` is a total function (the Python body catches
timeouts and exceptions from the backend close call), calling it any
number of times on a processor that was never started changes nothing and
leaves `is_running` false, and when a session is running it clears the
client handle, the current agent, and the turn counter for every possible
outcome of the backend close call. -/
theorem session_stop_idempotent_safe :
    (∀ (s : Session.ProcessorState) (o o' : Session.CloseOutcome),
        s.client = none →
        Session.stop (Session.stop s o) o' = s ∧
        Session.is_running (Session.stop (Session.stop s o) o') = false) ∧
    (∀ (s : Session.ProcessorState) (o : Session.CloseOutcome),
        Session.is_running (Session.stop s o) = false) ∧
    (∀ (s : Session.ProcessorState) (o : Session.CloseOutcome),
        s.client.isSome = true →
        (Session.stop s o).client = none ∧
        (Session.stop s o).current_agent = none ∧
        (Session.stop s o).turn_count = 0) := by
  refine ⟨?_, ?_, ?_⟩
  · intro s o o' h
    simp [Session.stop, Session.is_running, h]
  · intro s o
    cases e : s.client <;> simp [Session.stop, Session.is_running, e]
  · intro s o h
    cases e : s.client with
    | none => rw [e] at h; simp at h
    | some c => simp [Session.stop, e]

/-- Witness for C9 at concrete inputs: double `stop` on a never-started
processor with a raising close outcome is a no-op with `is_running`
false, and `stop` on the running scenario processor clears client, agent,
and turn counter even when the close call raises. -/
theorem session_stop_idempotent_safe_witness :
    Session.stop (Session.stop { } (Session.CloseOutcome.raised "boom"))
        Session.CloseOutcome.timedOut = ({ } : Session.ProcessorState) ∧
    Session.is_running
        (Session.stop (Session.stop { } (Session.CloseOutcome.raised "boom"))
          Session.CloseOutcome.timedOut) = false ∧
    (Session.stop Scenario.runningProc (Session.CloseOutcome.raised "boom")).client =
      none ∧
    (Session.stop Scenario.runningProc
        (Session.CloseOutcome.raised "boom")).current_agent = none ∧
    (Session.stop Scenario.runningProc
        (Session.CloseOutcome.raised "boom")).turn_count = 0 :=
  ⟨(session_stop_idempotent_safe.1 { } (Session.CloseOutcome.raised "boom")
      Session.CloseOutcome.timedOut rfl).1,
   (session_stop_idempotent_safe.1 { } (Session.CloseOutcome.raised "boom")
      Session.CloseOutcome.timedOut rfl).2,
   (session_stop_idempotent_safe.2.2 Scenario.runningProc
      (Session.CloseOutcome.raised "boom") rfl).1,
   (session_stop_idempotent_safe.2.2 Scenario.runningProc
      (Session.CloseOutcome.raised "boom") rfl).2.1,
   (session_stop_idempotent_safe.2.2 Scenario.runningProc
      (Session.CloseOutcome.raised "boom") rfl).2.2⟩

/-- Counterexample for C7: the scenario processor is running for `build`
with five turns and session id `sess-1`; calling `start` for the distinct
agent `plan` leaves the turn counter at 5 (not 0) because `start` forces
no stop, and `stop` leaves the old session identifier in place, so it
remains observable after rebinding. -/
theorem session_switch_counterexample :
    Session.is_running Scenario.runningProc = true ∧
    Scenario.runningProc.current_agent = some Scenario.buildAgent ∧
    Scenario.planAgent ≠ Scenario.buildAgent ∧
    (Session.start Scenario.runningProc Scenario.planAgent 2).turn_count = 5 ∧
    (Session.start Scenario.runningProc Scenario.planAgent 2).session_id =
      some "sess-1" ∧
    (Session.stop Scenario.runningProc Session.CloseOutcome.ok).session_id =
      some "sess-1" := by
  decide

/-- C7 (amended): `start` on a running processor rebinds the agent and
replaces the client handle but performs no stop: the turn counter and the
session identifier are unchanged. Only `stop` resets the turn counter to
zero and clears the client and agent, and even `stop` leaves the session
identifier in place until a later response overwrites it. -/
theorem session_switch_amended :
    (∀ (s : Session.ProcessorState) (agent : AgentReg.AgentDefinition) (c : Nat),
        (Session.start s agent c).turn_count = s.turn_count ∧
        (Session.start s agent c).session_id = s.session_id ∧
        (Session.start s agent c).client = some c ∧
        (Session.start s agent c).current_agent = some agent) ∧
    (∀ (s : Session.ProcessorState) (o : Session.CloseOutcome),
        s.client.isSome = true →
        (Session.stop s o).turn_count = 0 ∧
        (Session.stop s o).current_agent = none ∧
        (Session.stop s o).client = none ∧
        (Session.stop s o).session_id = s.session_id) := by
  constructor
  · intro s agent c
    simp [Session.start]
  · intro s o h
    cases e : s.client with
    | none => rw [e] at h; simp at h
    | some c => simp [Session.stop, e]

/-- Witness for C7 (amended) at the scenario processor: starting `plan`
keeps turn count 5 and the old session id, and stopping with a raising
close outcome zeroes the counter while keeping the session id. -/
theorem session_switch_amended_witness :
    (Session.start Scenario.runningProc Scenario.planAgent 2).turn_count =
      Scenario.runningProc.turn_count ∧
    (Session.start Scenario.runningProc Scenario.planAgent 2).session_id =
      Scenario.runningProc.session_id ∧
    (Session.stop Scenario.runningProc (Session.CloseOutcome.raised "boom")).turn_count
      = 0 ∧
    (Session.stop Scenario.runningProc
        (Session.CloseOutcome.raised "boom")).session_id =
      Scenario.runningProc.session_id :=
  ⟨(session_switch_amended.1 Scenario.runningProc Scenario.planAgent 2).1,
   (session_switch_amended.1 Scenario.runningProc Scenario.planAgent 2).2.1,
   (session_switch_amended.2 Scenario.runningProc
      (Session.CloseOutcome.raised "boom") rfl).1,
   (session_switch_amended.2 Scenario.runningProc
      (Session.CloseOutcome.raised "boom") rfl).2.2.2⟩

theorem runCompletions_no_compaction (s : MAgent.AgentState)
    (o : MAgent.CompactionOutcome) :
    ∀ n : Nat, s.turn_count + n < MAgent.COMPACTION_THRESHOLD →
      MAgent.runCompletions s o n = ({ s with turn_count := s.turn_count + n }, 0) := by
  intro n
  induction n with
  | zero => intro _; rfl
  | succ n ih =>
      intro h
      have h' : s.turn_count + n < MAgent.COMPACTION_THRESHOLD := by omega
      have hn : ¬ (MAgent.COMPACTION_THRESHOLD ≤ s.turn_count + n + 1) := by
        simp only [MAgent.COMPACTION_THRESHOLD] at h ⊢
        omega
      simp [MAgent.runCompletions, ih h', MAgent.completionStep,
        MAgent.increment_turn, hn]
      omega

theorem runCompletions_succ (s : MAgent.AgentState)
    (o : MAgent.CompactionOutcome) (n : Nat) :
    MAgent.runCompletions s o (n + 1) =
      ((MAgent.completionStep (MAgent.runCompletions s o n).1 o).1,
        (MAgent.runCompletions s o n).2 +
          (if (MAgent.completionStep (MAgent.runCompletions s o n).1 o).2 then 1
           else 0)) := rfl

/-- Counterexample for C6: starting from a fresh agent with turn count 0,
the compaction cycle runs at the 50th successful completion (the count
after 50 completions with successful summarization is already 1 and the
turn counter is already back to 0), so the next completion after 50 — the
51st — triggers no compaction and leaves the turn counter at 1, not 0. -/
theorem compaction_off_by_one_counterexample :
    (MAgent.runCompletions Scenario.freshAgent
        (MAgent.CompactionOutcome.summarized "sum") 50).2 = 1 ∧
    (MAgent.runCompletions Scenario.freshAgent
        (MAgent.CompactionOutcome.summarized "sum") 50).1.turn_count = 0 ∧
    (MAgent.runCompletions Scenario.freshAgent
        (MAgent.CompactionOutcome.summarized "sum") 51).2 = 1 ∧
    (MAgent.runCompletions Scenario.freshAgent
        (MAgent.CompactionOutcome.summarized "sum") 51).1.turn_count = 1 := by
  refine ⟨?_, ?_, ?_, ?_⟩ <;> rfl

/-- C6 (amended): after 49 successful query completions on one agent with
turn count starting at 0, no compaction has run; the next (50th)
completion triggers exactly one compaction cycle, resetting the turn
counter to 0 and restarting the session with the summary appended to the
default system prompt. If instead the summarization sub-query of that
50th completion errors, the compaction call leaves the turn counter
untouched (it stays at 50), the existing uncompacted session keeps
running, and no exception escapes (the embedded compaction is total). -/
theorem compaction_threshold_amended (s : MAgent.AgentState) (t : String)
    (h0 : s.turn_count = 0) (hc : s.clientOpen = true) (ht : t ≠ "") :
    (MAgent.runCompletions s (MAgent.CompactionOutcome.summarized t) 49).2 = 0 ∧
    (MAgent.runCompletions s (MAgent.CompactionOutcome.summarized t) 49).1.turn_count
      = 49 ∧
    (MAgent.runCompletions s (MAgent.CompactionOutcome.summarized t) 50).2 = 1 ∧
    (MAgent.runCompletions s (MAgent.CompactionOutcome.summarized t) 50).1.turn_count
      = 0 ∧
    (MAgent.runCompletions s (MAgent.CompactionOutcome.summarized t) 50).1.clientOpen
      = true ∧
    (MAgent.runCompletions s
        (MAgent.CompactionOutcome.summarized t) 50).1.system_prompt =
      MAgent.compactedPrompt MAgent.matlabBasePrompt t ∧
    (MAgent.completionStep
        (MAgent.runCompletions s (MAgent.CompactionOutcome.summarized t) 49).1
        MAgent.CompactionOutcome.queryError).2 = true ∧
    (MAgent.completionStep
        (MAgent.runCompletions s (MAgent.CompactionOutcome.summarized t) 49).1
        MAgent.CompactionOutcome.queryError).1.turn_count = 50 ∧
    (MAgent.completionStep
        (MAgent.runCompletions s (MAgent.CompactionOutcome.summarized t) 49).1
        MAgent.CompactionOutcome.queryError).1.clientOpen = true := by
  have h49 : MAgent.runCompletions s (MAgent.CompactionOutcome.summarized t) 49 =
      ({ s with turn_count := 49 }, 0) := by
    have hlt : s.turn_count + 49 < MAgent.COMPACTION_THRESHOLD := by
      rw [h0]; decide
    rw [runCompletions_no_compaction s _ 49 hlt, h0]
  have hstep : MAgent.completionStep ({ s with turn_count := 49 })
      (MAgent.CompactionOutcome.summarized t) =
      ({ clientOpen := true, turn_count := 0, conversation_summary := t,
         system_prompt := MAgent.compactedPrompt MAgent.matlabBasePrompt t },
       true) := by
    simp [MAgent.completionStep, MAgent.increment_turn,
      MAgent.COMPACTION_THRESHOLD, MAgent.compact_conversation, hc, ht]
  have hstepErr : MAgent.completionStep ({ s with turn_count := 49 })
      MAgent.CompactionOutcome.queryError = ({ s with turn_count := 50 }, true) := by
    simp [MAgent.completionStep, MAgent.increment_turn,
      MAgent.COMPACTION_THRESHOLD, MAgent.compact_conversation, hc]
  have h5049 : (50 : Nat) = 49 + 1 := by norm_num
  refine ⟨by rw [h49], by rw [h49], ?_, ?_, ?_, ?_, ?_, ?_, ?_⟩
  · rw [h5049, runCompletions_succ, h49, hstep]; rfl
  · rw [h5049, runCompletions_succ, h49, hstep]
  · rw [h5049, runCompletions_succ, h49, hstep]
  · rw [h5049, runCompletions_succ, h49, hstep]
  · rw [h49, hstepErr]
  · rw [h49, hstepErr]
  · rw [h49, hstepErr]; exact hc

/-- Witness for C6 (amended) at the fresh scenario agent with summary
text `sum`. -/
theorem compaction_threshold_amended_witness :
    (MAgent.runCompletions Scenario.freshAgent
        (MAgent.CompactionOutcome.summarized "sum") 49).2 = 0 ∧
    (MAgent.runCompletions Scenario.freshAgent
        (MAgent.CompactionOutcome.summarized "sum") 49).1.turn_count = 49 ∧
    (MAgent.runCompletions Scenario.freshAgent
        (MAgent.CompactionOutcome.summarized "sum") 50).2 = 1 ∧
    (MAgent.runCompletions Scenario.freshAgent
        (MAgent.CompactionOutcome.summarized "sum") 50).1.turn_count = 0 ∧
    (MAgent.runCompletions Scenario.freshAgent
        (MAgent.CompactionOutcome.summarized "sum") 50).1.clientOpen = true ∧
    (MAgent.runCompletions Scenario.freshAgent
        (MAgent.CompactionOutcome.summarized "sum") 50).1.system_prompt =
      MAgent.compactedPrompt MAgent.matlabBasePrompt "sum" ∧
    (MAgent.completionStep
        (MAgent.runCompletions Scenario.freshAgent
          (MAgent.CompactionOutcome.summarized "sum") 49).1
        MAgent.CompactionOutcome.queryError).2 = true ∧
    (MAgent.completionStep
        (MAgent.runCompletions Scenario.freshAgent
          (MAgent.CompactionOutcome.summarized "sum") 49).1
        MAgent.CompactionOutcome.queryError).1.turn_count = 50 ∧
    (MAgent.completionStep
        (MAgent.runCompletions Scenario.freshAgent
          (MAgent.CompactionOutcome.summarized "sum") 49).1
        MAgent.CompactionOutcome.queryError).1.clientOpen = true :=
  compaction_threshold_amended Scenario.freshAgent "sum" rfl rfl (by decide)

/-- C1: when `interrupt_process` runs before the background work has
marked the pending operation complete, it returns true, marks the
operation complete (so `is_async_complete` becomes true), and stores the
interrupted result, whose dict reports `interrupted: true` (and
`success: false`); when the pending operation is already complete it
returns false and changes no state at all. -/
theorem bridge_interrupt_spec (s : Bridge.BridgeState) :
    (s.asyncComplete = false →
      (Bridge.interrupt_process s).2 = true ∧
      Bridge.is_async_complete (Bridge.interrupt_process s).1 = true ∧
      Bridge.get_async_response (Bridge.interrupt_process s).1 =
        some Bridge.interruptedResponse ∧
      dictGet Bridge.interruptedResponse "interrupted" =
        some (Bridge.JVal.boolean true) ∧
      dictGet Bridge.interruptedResponse "success" =
        some (Bridge.JVal.boolean false)) ∧
    (s.asyncComplete = true →
      Bridge.interrupt_process s = (s, false)) := by
  constructor
  · intro h
    refine ⟨?_, ?_, ?_, by decide, by decide⟩ <;>
      simp [Bridge.interrupt_process, h, Bridge.is_async_complete,
        Bridge.get_async_response]
  · intro h
    simp [Bridge.interrupt_process, h]

/-- Witness for C1 at concrete states: interrupting the freshly
initialized bridge (nothing complete yet) triggers, completes and stores
the interrupted result; interrupting again afterwards returns false and
leaves the state untouched. -/
theorem bridge_interrupt_spec_witness :
    (Bridge.interrupt_process Bridge.initialState).2 = true ∧
    Bridge.is_async_complete (Bridge.interrupt_process Bridge.initialState).1 =
      true ∧
    Bridge.get_async_response (Bridge.interrupt_process Bridge.initialState).1 =
      some Bridge.interruptedResponse ∧
    Bridge.interrupt_process (Bridge.interrupt_process Bridge.initialState).1 =
      ((Bridge.interrupt_process Bridge.initialState).1, false) :=
  ⟨((bridge_interrupt_spec Bridge.initialState).1 rfl).1,
   ((bridge_interrupt_spec Bridge.initialState).1 rfl).2.1,
   ((bridge_interrupt_spec Bridge.initialState).1 rfl).2.2.1,
   (bridge_interrupt_spec (Bridge.interrupt_process Bridge.initialState).1).2 rfl⟩

/-- C2: `shutdown` raises the shutdown flag; with the flag raised, every
subsequent `start_async_message` records a completed error result and
schedules no background work; no modelled bridge transition ever lowers
the flag once raised; and when an operation is still pending, `shutdown`
marks it complete with an error result as its very first cleanup action,
before the session stop and event-loop termination attempts. -/
theorem bridge_shutdown_spec :
    (∀ s : Bridge.BridgeState, (Bridge.shutdown s).1.shutdownRequested = true) ∧
    (∀ s : Bridge.BridgeState, s.shutdownRequested = true →
      Bridge.start_async_message s =
        ({ s with asyncResponse := some Bridge.shutdownGuardResponse,
                  asyncComplete := true }, false) ∧
      dictGet Bridge.shutdownGuardResponse "success" =
        some (Bridge.JVal.boolean false) ∧
      dictGet Bridge.shutdownGuardResponse "error" =
        some (Bridge.JVal.str "Bridge is shutting down")) ∧
    (∀ u v : Bridge.BridgeState, Bridge.Step u v →
      u.shutdownRequested = true → v.shutdownRequested = true) ∧
    (∀ s : Bridge.BridgeState, s.asyncComplete = false →
      (Bridge.shutdown s).1.asyncComplete = true ∧
      (Bridge.shutdown s).1.asyncResponse = some Bridge.shutdownResponse ∧
      ∃ rest,
        (Bridge.shutdown s).2 =
          Bridge.ShutdownAction.setShutdownFlag ::
            Bridge.ShutdownAction.markPendingComplete :: rest ∧
        Bridge.ShutdownAction.markPendingComplete ∉ rest ∧
        Bridge.ShutdownAction.stopEventLoop ∈ rest) := by
  refine ⟨?_, ?_, ?_, ?_⟩
  · intro s
    simp [Bridge.shutdown]
    split <;> simp
  · intro s h
    refine ⟨?_, by decide, by decide⟩
    simp [Bridge.start_async_message, h]
  · intro u v hstep h
    cases hstep with
    | startMsg => simp [Bridge.start_async_message, h]
    | stream c => cases c <;> simp [Bridge.streamContent, h]
    | success text images sid an rr => simp [Bridge.finishSuccess, h]
    | cancelled text images an rr => simp [Bridge.finishCancelled, h]
    | errored err an rr => simp [Bridge.finishError, h]
    | missingAgent an rr => simp [Bridge.finishMissingAgent, h]
    | finallyStep an rr =>
        cases hs : u.asyncComplete <;> simp [Bridge.finallyGuard, hs, h]
    | interrupt =>
        cases hs : u.asyncComplete <;> simp [Bridge.interrupt_process, hs, h]
    | shutdownStep =>
        cases hs : u.asyncComplete <;> simp [Bridge.shutdown, hs]
    | pollChunks => simp [Bridge.poll_async_chunks, h]
    | pollContent => simp [Bridge.poll_async_content, h]
  · intro s h
    refine ⟨?_, ?_, ?_⟩
    · simp [Bridge.shutdown, h]
    · simp [Bridge.shutdown, h]
    · refine ⟨(if s.agentRunning then [Bridge.ShutdownAction.stopAgentSession]
          else []) ++ [Bridge.ShutdownAction.stopEventLoop,
            Bridge.ShutdownAction.joinLoopThread], ?_, ?_, ?_⟩
      · simp [Bridge.shutdown, h]
      · cases ha : s.agentRunning <;> simp [ha]
      · cases ha : s.agentRunning <;> simp [ha]

/-- Witness for C2 at concrete states: `shutdown` on the freshly
initialized bridge (pending, agent running) marks the pending operation
complete before the event-loop stop, and a subsequent
`start_async_message` fails fast with the shutdown-guard error result. -/
theorem bridge_shutdown_spec_witness :
    (Bridge.shutdown Bridge.initialState).1.shutdownRequested = true ∧
    ((Bridge.shutdown Bridge.initialState).1.asyncComplete = true ∧
      (Bridge.shutdown Bridge.initialState).1.asyncResponse =
        some Bridge.shutdownResponse ∧
      ∃ rest,
        (Bridge.shutdown Bridge.initialState).2 =
          Bridge.ShutdownAction.setShutdownFlag ::
            Bridge.ShutdownAction.markPendingComplete :: rest ∧
        Bridge.ShutdownAction.markPendingComplete ∉ rest ∧
        Bridge.ShutdownAction.stopEventLoop ∈ rest) ∧
    Bridge.start_async_message (Bridge.shutdown Bridge.initialState).1 =
      ({ (Bridge.shutdown Bridge.initialState).1 with
          asyncResponse := some Bridge.shutdownGuardResponse,
          asyncComplete := true }, false) :=
  ⟨bridge_shutdown_spec.1 Bridge.initialState,
   bridge_shutdown_spec.2.2.2 Bridge.initialState rfl,
   (bridge_shutdown_spec.2.1 (Bridge.shutdown Bridge.initialState).1
      (bridge_shutdown_spec.1 Bridge.initialState)).1⟩

/-- C10: in every bridge state reachable from initialization through the
modelled operations, whenever `is_async_complete` reports true a result
dict is stored and it contains both a `success` and an `error` field, so
a caller that observes completion can always read a result. -/
theorem bridge_completion_invariant (s : Bridge.BridgeState)
    (hreach : Bridge.Reachable s) :
    Bridge.is_async_complete s = true →
    ∃ r, Bridge.get_async_response s = some r ∧
      "success" ∈ Bridge.keysOf r ∧ "error" ∈ Bridge.keysOf r := by
  unfold Bridge.Reachable at hreach
  induction hreach with
  | refl =>
      intro h
      simp [Bridge.initialState, Bridge.is_async_complete] at h
  | tail hpred hstep ih =>
      rename_i b c
      clear hpred
      cases hstep with
      | startMsg =>
          cases hs : b.shutdownRequested with
          | true =>
              intro _
              refine ⟨Bridge.shutdownGuardResponse, ?_, by decide, by decide⟩
              simp [Bridge.start_async_message, hs, Bridge.get_async_response]
          | false =>
              intro h
              simp [Bridge.start_async_message, hs,
                Bridge.is_async_complete] at h
      | stream c =>
          intro h
          have h' : Bridge.is_async_complete b = true := by
            cases c <;>
              simpa [Bridge.streamContent, Bridge.is_async_complete] using h
          obtain ⟨r, hr, hks, hke⟩ := ih h'
          exact ⟨r, by
            cases c <;>
              simpa [Bridge.streamContent, Bridge.get_async_response] using hr,
            hks, hke⟩
      | success text images sid an rr =>
          intro _
          refine ⟨Bridge.successResponse text images sid an rr, ?_, ?_, ?_⟩ <;>
            simp [Bridge.finishSuccess, Bridge.get_async_response,
              Bridge.successResponse, Bridge.keysOf]
      | cancelled text images an rr =>
          intro _
          refine ⟨Bridge.cancelledResponse text images an rr, ?_, ?_, ?_⟩ <;>
            simp [Bridge.finishCancelled, Bridge.get_async_response,
              Bridge.cancelledResponse, Bridge.keysOf]
      | errored err an rr =>
          intro _
          refine ⟨Bridge.errorResponse err an rr, ?_, ?_, ?_⟩ <;>
            simp [Bridge.finishError, Bridge.get_async_response,
              Bridge.errorResponse, Bridge.keysOf]
      | missingAgent an rr =>
          intro _
          refine ⟨Bridge.missingAgentResponse an rr, ?_, ?_, ?_⟩ <;>
            simp [Bridge.finishMissingAgent, Bridge.get_async_response,
              Bridge.missingAgentResponse, Bridge.errorResponse, Bridge.keysOf]
      | finallyStep an rr =>
          cases hs : b.asyncComplete with
          | true =>
              intro _
              obtain ⟨r, hr, hks, hke⟩ := ih hs
              exact ⟨r, by simpa [Bridge.finallyGuard, hs,
                Bridge.get_async_response] using hr, hks, hke⟩
          | false =>
              intro _
              refine ⟨Bridge.finallyResponse an rr, ?_, ?_, ?_⟩ <;>
                simp [Bridge.finallyGuard, hs, Bridge.get_async_response,
                  Bridge.finallyResponse, Bridge.errorResponse, Bridge.keysOf]
      | interrupt =>
          cases hs : b.asyncComplete with
          | true =>
              intro _
              obtain ⟨r, hr, hks, hke⟩ := ih hs
              exact ⟨r, by simpa [Bridge.interrupt_process, hs,
                Bridge.get_async_response] using hr, hks, hke⟩
          | false =>
              intro _
              refine ⟨Bridge.interruptedResponse, ?_, by decide, by decide⟩
              simp [Bridge.interrupt_process, hs, Bridge.get_async_response]
      | shutdownStep =>
          cases hs : b.asyncComplete with
          | true =>
              intro _
              obtain ⟨r, hr, hks, hke⟩ := ih hs
              exact ⟨r, by simpa [Bridge.shutdown, hs,
                Bridge.get_async_response] using hr, hks, hke⟩
          | false =>
              intro _
              refine ⟨Bridge.shutdownResponse, ?_, by decide, by decide⟩
              simp [Bridge.shutdown, hs, Bridge.get_async_response]
      | pollChunks =>
          intro h
          have h' : Bridge.is_async_complete b = true := by
            simpa [Bridge.poll_async_chunks, Bridge.is_async_complete] using h
          obtain ⟨r, hr, hks, hke⟩ := ih h'
          exact ⟨r, by simpa [Bridge.poll_async_chunks,
            Bridge.get_async_response] using hr, hks, hke⟩
      | pollContent =>
          intro h
          have h' : Bridge.is_async_complete b = true := by
            simpa [Bridge.poll_async_content, Bridge.is_async_complete] using h
          obtain ⟨r, hr, hks, hke⟩ := ih h'
          exact ⟨r, by simpa [Bridge.poll_async_content,
            Bridge.get_async_response] using hr, hks, hke⟩

/-- Witness for C10 at a concrete reachable state: after a shutdown of
the freshly initialized bridge, completion is marked and the stored
result carries `success` and `error` fields. -/
theorem bridge_completion_invariant_witness :
    ∃ r, Bridge.get_async_response (Bridge.shutdown Bridge.initialState).1 =
        some r ∧
      "success" ∈ Bridge.keysOf r ∧ "error" ∈ Bridge.keysOf r :=
  bridge_completion_invariant (Bridge.shutdown Bridge.initialState).1
    (Relation.ReflTransGen.single (Bridge.Step.shutdownStep Bridge.initialState))
    rfl

end Theorems
